import Mathlib

/-
  Verification development for the MySMTP repository.

  Strings are modelled as lists of characters (`Str`); the Go string
  helpers used by the SMTP engine (strings.TrimSpace, strings.Split,
  strings.Index, strings.ToUpper, ...) are re-implemented structurally so
  that every definition is executable and kernel-reducible.

  The server session engine (serverconn.go, final revision), the client
  EHLO/STARTTLS driver (clientconn.go, final revision), the mail value,
  the named-address header parser and the JSON DTO conversions are
  embedded below; the theorems at the end of the file settle the frozen
  claims about them.
-/

namespace MySMTP

/-- Character-list model of Go strings. -/
abbrev Str := List Char

/-- Convert a Lean string literal into the model. -/
def str (s : String) : Str := s.data

/-- Whitespace test matching the ASCII cases of Go `unicode.IsSpace`
(space, tab, newline, vertical tab, form feed, carriage return). -/
def wsChar (c : Char) : Bool :=
  c = ' ' || c = '\t' || c = '\n' || c = '\x0b' || c = '\x0c' || c = '\r'

/-- Go `strings.TrimSpace`: drop whitespace from both ends. -/
def goTrim (s : Str) : Str :=
  ((s.dropWhile wsChar).reverse.dropWhile wsChar).reverse

/-- ASCII uppercase of one character (Go `strings.ToUpper`, ASCII range). -/
def upChar (c : Char) : Char :=
  if 'a' ≤ c ∧ c ≤ 'z' then Char.ofNat (c.toNat - 32) else c

/-- Go `strings.ToUpper` on the ASCII range. -/
def goToUpper (s : Str) : Str := s.map upChar

/-- Index of the first occurrence of a character (Go `strings.Index` with a
one-character separator), `none` when absent (Go returns -1). -/
def idxOf (c : Char) : Str → Option Nat
  | [] => none
  | d :: rest => if d = c then some 0 else (idxOf c rest).map (· + 1)

/-- Number of occurrences of a character (Go `strings.Count` with a
one-character separator). -/
def countChar (c : Char) (s : Str) : Nat := s.count c

/-- Go `strings.Split` with a one-character separator. -/
def splitOnChar (c : Char) : Str → List Str
  | [] => [[]]
  | d :: rest =>
    let tail := splitOnChar c rest
    if d = c then [] :: tail
    else match tail with
      | [] => [[d]]
      | t :: ts => (d :: t) :: ts

/-- `util/string.FirstWord`: the prefix up to the first space. -/
def FirstWord (s : Str) : Str :=
  match idxOf ' ' s with
  | none => s
  | some i => s.take i

/-- Go `strings.HasPrefix`. -/
def hasPrefixS (pre s : Str) : Bool := pre.isPrefixOf s

/-- Go `strings.Contains` (substring test). -/
def containsSub (needle : Str) : Str → Bool
  | [] => needle.isEmpty
  | c :: rest => hasPrefixS needle (c :: rest) || containsSub needle rest

/-- CRLF line terminator. -/
def crlf : Str := ['\r', '\n']

/-- Does the string already end in CRLF?  (Go: `len(str) >= 2 &&
str[len(str)-2:] == "\r\n"`.) -/
def endsWithCRLF (s : Str) : Bool := crlf.isSuffixOf s

/-- The server/client write normalisation: append CRLF when missing
(`ServerConn.write`, `util/conn.Write`). -/
def writeNorm (s : Str) : Str := if endsWithCRLF s then s else s ++ crlf

/-! ## Wire vocabulary (smtp/protocol)

The prepared reply strings from the protocol package.  The builder writes
`"<code><space><text>"` with no trailing CRLF; the write path appends it. -/

def PREPARED_S_ACCEPTANCE : Str := str "220 Service Ready"
def PREPARED_S_BAD_COMMAND : Str := str "500 Syntax error, command not understood"
def PREPARED_S_BAD_SYNTAX : Str := str "501 Syntax error in parameters or arguments"
def PREPARED_S_BAD_SEQUENCE : Str := str "503 Bad sequence of commands"
def PREPARED_S_ACKNOWLEDGE : Str := str "250 OK"
def PREPARED_S_STARTTLS_READY : Str := str "220 Ready to start TLS"
def PREPARED_S_TRANSACTION_FAILED : Str := str "554 Transaction failed"
def PREPARED_S_BYE : Str := str "221 Bye"

/-- Modelled from the spec: the constant `protocol.PREPARED_S_START_DATA`
referenced by `ServerConn.handleData` is not among the provided protocol
source files; the spec lists the canned reply
`354 Start mail input; end with <CRLF>.<CRLF>` for the DATA acceptance. -/
def PREPARED_S_START_DATA : Str := str "354 Start mail input; end with <CRLF>.<CRLF>"

/-- Modelled from the spec: the set `protocol.SMTP_VALID_FLAGS` consulted by
`ServerConn.handleMailFrom` is not among the provided protocol source
files; the spec gives the closed key set
`SIZE, BODY, SMTPUTF8, AUTH, RET, ENVID, NOTIFY, ORCPT`. -/
def SMTP_VALID_FLAGS : List Str :=
  [str "SIZE", str "BODY", str "SMTPUTF8", str "AUTH",
   str "RET", str "ENVID", str "NOTIFY", str "ORCPT"]

/-- SMTP state constants (`protocol.SMTPStates`); note that in the source
`STATE_EHLO` and `STATE_AUTH` share the numeric value 1. -/
def STATE_DEAD : Nat := 0
def STATE_EHLO : Nat := 1
def STATE_AUTH : Nat := 1
def STATE_MAIL_FROM : Nat := 2
def STATE_RCPT_TO : Nat := 3
def STATE_DATA : Nat := 4

/-! ## util/smtp: address helpers -/

/-- `smtputil.CleanEmail`: take `<me@email.com>` and make `me@email.com`;
missing brackets return the input unchanged. -/
def CleanEmail (s : Str) : Str :=
  match idxOf '<' s with
  | none => s
  | some pre =>
    match idxOf '>' (s.drop pre) with
    | none => s
    | some suf => goTrim ((s.drop (pre + 1)).take (suf - 1))

/-- `smtputil.RemoveAll(s, "\"")`: strip every double quote. -/
def removeQuotes (s : Str) : Str := s.filter (fun c => ¬ (c = '"'))

/-- `smtputil.CleanFromData`: split a `Name <addr>` entry at the FIRST
space; the name part loses its quotes, the rest goes through CleanEmail. -/
def CleanFromData (s : Str) : Str × Str :=
  match idxOf ' ' s with
  | some spaceIndex =>
    (goTrim (removeQuotes (s.take spaceIndex)), CleanEmail (s.drop (spaceIndex + 1)))
  | none => ([], CleanEmail s)

/-! ## mail: message value, named addresses, JSON DTO -/

/-- `mail.Mail` (fields as in the Go struct; flags are (key, value) pairs). -/
structure GoMail where
  from_ : Str
  flags : List (Str × Str)
  to_ : List Str
  cc : List Str
  bcc : List Str
  subject : Str
  data : Str
deriving Repr, DecidableEq

/-- `mail.Mail{}` / `NewBlankMail`. -/
def blankMail : GoMail := ⟨[], [], [], [], [], [], []⟩

/-- `mail.NamedAddress` (header key/value flattened in). -/
structure NamedAddress where
  headerKey : Str
  headerValue : Str
  name : Str
  address : Str
deriving Repr, DecidableEq

/-- The zero value `NamedAddress{}` left in unassigned slice slots. -/
def zeroNamedAddress : NamedAddress := ⟨[], [], [], []⟩

/-- `mail.rawToNamedAddress`: parse `value` with CleanFromData and record
the (key, value) header pair. -/
def rawToNamedAddress (key value _raw : Str) : NamedAddress :=
  let p := CleanFromData value
  ⟨key, value, p.1, p.2⟩

/-- `mail.ParseNamedAddress` (final revision of data_headers.go).  The Go
code allocates `make([]NamedAddress, count(line, ",")+1)` and assigns
indices from the split; unassigned slots keep the zero value.  In the
multiple-address branch the Go call is `rawToNamedAddress(entry, key, value)`,
so CleanFromData runs on the header KEY for every entry. -/
def ParseNamedAddress (line : Str) : List NamedAddress :=
  match idxOf ':' line with
  | none => []
  | some keyEndIndex =>
    let key := goTrim (line.take keyEndIndex)
    let value := goTrim (line.drop (keyEndIndex + 1))
    let hasMultiple := value.contains ','
    let alloc := countChar ',' line + 1
    let entries : List NamedAddress :=
      if hasMultiple then
        (splitOnChar ',' value).map (fun entry => rawToNamedAddress entry key value)
      else
        [rawToNamedAddress key value value]
    (List.range alloc).map (fun i => entries.getD i zeroNamedAddress)

/-- `mail.JSONMail`: the JSON transport DTO; `Headers` is a Go map,
modelled as an association list in first-insertion order with last-wins
overwriting. -/
structure JSONMail where
  From : Str
  To : List Str
  CC : List Str
  BCC : List Str
  Subject : Str
  Body : Str
  Headers : List (Str × Str)
deriving Repr, DecidableEq

/-- Go map assignment `m[k] = v`: overwrite in place or append. -/
def headersInsert (hs : List (Str × Str)) (k v : Str) : List (Str × Str) :=
  if hs.any (fun kv => kv.1 = k) then
    hs.map (fun kv => if kv.1 = k then (k, v) else kv)
  else hs ++ [(k, v)]

/-- `mail.FromMail`: Mail → JSONMail; flags with non-empty key and value go
into the Headers map. -/
def FromMail (m : GoMail) : JSONMail :=
  { From := m.from_
    To := m.to_
    CC := m.cc
    BCC := m.bcc
    Subject := m.subject
    Body := m.data
    Headers := m.flags.foldl
      (fun hs kv => if kv.1 ≠ [] ∧ kv.2 ≠ [] then headersInsert hs kv.1 kv.2 else hs) [] }

/-- `mail.JSONMail.ToMail`: JSONMail → Mail; each guard mirrors the Go
`if` around the corresponding setter, and the Headers map is iterated in
the model's list order (Go map iteration order is unspecified). -/
def ToMail (j : JSONMail) : GoMail :=
  let m := blankMail
  let m := if j.From ≠ [] then { m with from_ := j.From } else m
  let m := if j.To.length > 0 then { m with to_ := m.to_ ++ j.To } else m
  let m := if j.CC.length > 0 then { m with cc := m.cc ++ j.CC } else m
  let m := if j.BCC.length > 0 then { m with bcc := m.bcc ++ j.BCC } else m
  let m := if j.Subject ≠ [] then { m with subject := j.Subject } else m
  let m := if j.Body ≠ [] then { m with data := j.Body } else m
  j.Headers.foldl
    (fun m kv => if kv.1 ≠ [] ∧ kv.2 ≠ [] then { m with flags := m.flags ++ [kv] } else m) m

/-- `smtp.defaultEmailExistsChecker`: the default recipient-existence
handler always answers false. -/
def defaultEmailExistsChecker (_email : Str) : Bool := false

/-! ## smtp.ServerConn: the server session engine

The session state of `ServerConn` (final revision of serverconn.go).  The
transport is abstracted: `transport` is an identity counter (STARTTLS
replaces the connection, bumping it), `encrypted` records whether the
transport is TLS-wrapped, and `tlsConfigSet` whether TLS material is
configured.  The nullable callback slots are `Option` functions; a mail
handler returning `false` plays the role of a non-nil error (rejection). -/
structure ServerConn where
  state : Nat
  relay : Bool
  tlsConfigSet : Bool
  encrypted : Bool
  transport : Nat
  serverDomain : Str
  mail : GoMail
  verifyEmail : Option (Str → Bool)
  emailExists : Option (Str → Bool)
  mailHandler : Option (GoMail → Bool)

/-- `ServerConn.handleEHLO`: out-of-sequence EHLO returns silently with no
reply; a missing domain gets 501; otherwise the multi-line advertisement
is written and the state advances. -/
def handleEHLO (s : ServerConn) (line : Str) : ServerConn × List Str :=
  if ¬ (s.state = STATE_EHLO) then (s, [])
  else
    let parts := splitOnChar ' ' line
    if parts.length < 2 then (s, [writeNorm PREPARED_S_BAD_SYNTAX])
    else
      let clientDomain := parts.getD 1 []
      let firstLine := str "250-" ++ s.serverDomain ++ str " Hello " ++ clientDomain ++ crlf
      let out :=
        [writeNorm firstLine]
        ++ (if s.tlsConfigSet then [writeNorm (str "250-STARTTLS" ++ crlf)] else [])
        ++ (if s.relay then [writeNorm (str "250-AUTH PLAIN LOGIN" ++ crlf)] else [])
        ++ [writeNorm (str "250-8BITMIME" ++ crlf), writeNorm PREPARED_S_ACKNOWLEDGE]
      if s.relay then ({ s with state := STATE_AUTH }, out)
      else ({ s with state := STATE_MAIL_FROM }, out)

/-- One `MAIL FROM` parameter (`KEY` or `KEY=VALUE`): uppercased upstream,
trimmed, appended as a flag when the key is recognised. -/
def mailFromParam (m : GoMail) (param0 : Str) : GoMail :=
  let param := goTrim param0
  if param = [] then m
  else
    let kv : Str × Str :=
      match idxOf '=' param with
      | none => (param, [])
      | some eqIndex => (goTrim (param.take eqIndex), goTrim (param.drop (eqIndex + 1)))
    if kv.1 ≠ [] ∧ SMTP_VALID_FLAGS.contains kv.1 then
      { m with flags := m.flags ++ [kv] }
    else m

/-- `ServerConn.handleMailFrom`. -/
def handleMailFrom (s : ServerConn) (line : Str) : ServerConn × List Str :=
  if ¬ (s.state = STATE_MAIL_FROM) then (s, [writeNorm PREPARED_S_BAD_SEQUENCE])
  else if ¬ hasPrefixS (str "MAIL FROM:") (goToUpper line) then
    (s, [writeNorm PREPARED_S_BAD_COMMAND])
  else
    match idxOf ':' line with
    | none => (s, [writeNorm PREPARED_S_BAD_SYNTAX])
    | some colonIndex =>
      let remainder := goTrim (line.drop (colonIndex + 1))
      if remainder = [] then (s, [writeNorm PREPARED_S_BAD_SYNTAX])
      else
        match idxOf '>' remainder with
        | none => (s, [writeNorm PREPARED_S_BAD_SYNTAX])
        | some addEnd =>
          let address := CleanEmail (remainder.take (addEnd + 1))
          if address = [] then (s, [writeNorm PREPARED_S_BAD_SYNTAX])
          else if (match s.verifyEmail with
                   | some v => !(v address)
                   | none => false) then
            (s, [writeNorm PREPARED_S_BAD_SYNTAX])
          else
            let m1 := { s.mail with from_ := address }
            let m2 :=
              if remainder.length > addEnd + 1 then
                let rem := goToUpper remainder
                let params := splitOnChar ' ' (goTrim (rem.drop (addEnd + 1)))
                params.foldl mailFromParam m1
              else m1
            ({ s with mail := m2, state := STATE_RCPT_TO },
             [writeNorm PREPARED_S_ACKNOWLEDGE])

/-- `ServerConn.handleRctpTo`. -/
def handleRctpTo (s : ServerConn) (line : Str) : ServerConn × List Str :=
  if ¬ (s.state = STATE_RCPT_TO) then (s, [writeNorm PREPARED_S_BAD_SEQUENCE])
  else if ¬ hasPrefixS (str "RCPT TO:") (goToUpper line) then
    (s, [writeNorm PREPARED_S_BAD_COMMAND])
  else
    match idxOf ':' line with
    | none => (s, [writeNorm PREPARED_S_BAD_SYNTAX])
    | some colonIndex =>
      let remainder := goTrim (line.drop (colonIndex + 1))
      if remainder = [] then (s, [writeNorm PREPARED_S_BAD_SYNTAX])
      else
        match idxOf '>' remainder with
        | none => (s, [writeNorm PREPARED_S_BAD_SYNTAX])
        | some addEnd =>
          let address := CleanEmail (remainder.take (addEnd + 1))
          if address = [] then (s, [writeNorm PREPARED_S_BAD_SYNTAX])
          else if (match s.emailExists with
                   | some chk => !(chk address)
                   | none => false) then
            (s, [writeNorm PREPARED_S_BAD_SYNTAX])
          else
            ({ s with mail := { s.mail with to_ := s.mail.to_ ++ [address] } },
             [writeNorm PREPARED_S_ACKNOWLEDGE])

/-- `ServerConn.processHeader`: Subject / Cc / Bcc handling during DATA. -/
def processHeader (m : GoMail) (headerName headerValue : Str) : GoMail :=
  let up := goToUpper headerName
  if up = str "SUBJECT" then { m with subject := headerValue }
  else if up = str "CC" then
    { m with cc := m.cc ++
        (ParseNamedAddress (headerName ++ str ": " ++ headerValue)).map (·.address) }
  else if up = str "BCC" then
    { m with bcc := m.bcc ++
        (ParseNamedAddress (headerName ++ str ": " ++ headerValue)).map (·.address) }
  else m

/-- Loop state of the DATA capture in `ServerConn.handleData`. -/
structure DataSt where
  headers : Str
  body : Str
  inHeaders : Bool
  bodyStarted : Bool
  curName : Str
  curValue : Str
deriving Repr, DecidableEq

/-- Initial DATA loop state. -/
def dataStInit : DataSt := ⟨[], [], true, false, [], []⟩

/-- Flush the mid-parse header when the terminator arrives (the
`isTerminator` branch of the loop). -/
def dataTermFlush (m : GoMail) (st : DataSt) : GoMail :=
  if st.inHeaders ∧ st.curName ≠ [] then
    processHeader m st.curName (goTrim st.curValue)
  else m

/-- Header/body classification of one non-terminator line, after the
transparency dot has been removed (`line` in the Go loop body). -/
def dataClassify (m : GoMail) (st : DataSt) (line : Str) : GoMail × DataSt :=
  let trimmed := goTrim line
  if st.inHeaders ∧ trimmed = [] then
    let p : GoMail × DataSt :=
      if st.curName ≠ [] then
        (processHeader m st.curName (goTrim st.curValue),
         { st with curName := [], curValue := [] })
      else (m, st)
    (p.1, { p.2 with inHeaders := false, bodyStarted := true,
                     headers := p.2.headers ++ line })
  else if st.inHeaders then
    match idxOf ':' line with
    | some colonIndex =>
      if colonIndex > 0 then
        let m' := if st.curName ≠ [] then
            processHeader m st.curName (goTrim st.curValue) else m
        (m', { st with curName := goTrim (line.take colonIndex),
                       curValue := goTrim (line.drop (colonIndex + 1)),
                       headers := st.headers ++ line })
      else
        if line.length > 0 ∧ (line.head? = some ' ' ∨ line.head? = some '\t') then
          let st' := if st.curName ≠ [] then
              { st with curValue := st.curValue ++ [' '] ++ goTrim line } else st
          (m, { st' with headers := st'.headers ++ line })
        else (m, st)
    | none =>
      if line.length > 0 ∧ (line.head? = some ' ' ∨ line.head? = some '\t') then
        let st' := if st.curName ≠ [] then
            { st with curValue := st.curValue ++ [' '] ++ goTrim line } else st
        (m, { st' with headers := st'.headers ++ line })
      else (m, st)
  else (m, { st with body := st.body ++ line })

/-- The DATA read loop of `ServerConn.handleData`: consume raw lines until
the terminator.  The Bool reports whether the terminator was reached; a
missing terminator or an empty read (connection closed) ends the loop with
`false` and the mutations made so far. -/
def dataCaptureLoop (m : GoMail) (st : DataSt) : List Str → GoMail × DataSt × Bool
  | [] => (m, st, false)
  | rawLine :: rest =>
    if rawLine = [] then (m, st, false)
    else if goTrim rawLine = ['.'] then (dataTermFlush m st, st, true)
    else
      let line := if rawLine.length > 0 ∧ rawLine.head? = some '.'
                  then rawLine.drop 1 else rawLine
      let p := dataClassify m st line
      dataCaptureLoop p.1 p.2 rest

/-- `ServerConn.handleData`.  `input` is the stream of raw lines the
server reads during the DATA phase; the Bool result is false when the
connection broke (the outer loop then ends the session). -/
def handleData (s : ServerConn) (input : List Str) : ServerConn × List Str × Bool :=
  let s := if s.state = STATE_RCPT_TO then { s with state := STATE_DATA } else s
  if ¬ (s.state = STATE_DATA) then (s, [writeNorm PREPARED_S_BAD_SEQUENCE], true)
  else
    let r := dataCaptureLoop s.mail dataStInit input
    if ¬ r.2.2 then ({ s with mail := r.1 }, [writeNorm PREPARED_S_START_DATA], false)
    else
      let st := r.2.1
      let fullData := st.headers ++ (if st.bodyStarted then st.body else [])
      let mFin := { r.1 with data := fullData }
      match s.mailHandler with
      | some h =>
        if ¬ h mFin then
          ({ s with mail := mFin },
           [writeNorm PREPARED_S_START_DATA, writeNorm PREPARED_S_TRANSACTION_FAILED],
           true)
        else
          ({ s with mail := mFin, state := STATE_EHLO },
           [writeNorm PREPARED_S_START_DATA, writeNorm PREPARED_S_ACKNOWLEDGE], true)
      | none =>
        ({ s with mail := mFin, state := STATE_EHLO },
         [writeNorm PREPARED_S_START_DATA, writeNorm PREPARED_S_ACKNOWLEDGE], true)

/-- `ServerConn.handleStartTLS`.  `hsOk` models the outcome of the TLS
handshake; on success the transport is replaced (and the buffered reader
rebuilt), the state resets to the EHLO state, and the mail is untouched. -/
def handleStartTLS (s : ServerConn) (hsOk : Bool) : ServerConn × List Str :=
  if ¬ (s.state = STATE_EHLO) ∧ ¬ (s.state = STATE_MAIL_FROM) then
    (s, [writeNorm PREPARED_S_BAD_SEQUENCE])
  else if ¬ s.tlsConfigSet then (s, [writeNorm PREPARED_S_BAD_COMMAND])
  else if ¬ hsOk then (s, [writeNorm PREPARED_S_STARTTLS_READY])
  else
    ({ s with encrypted := true, transport := s.transport + 1, state := STATE_EHLO },
     [writeNorm PREPARED_S_STARTTLS_READY])

/-- `ServerConn.handleQuit`. -/
def handleQuit (s : ServerConn) : ServerConn × List Str :=
  (s, [writeNorm PREPARED_S_BYE])

/-- `ServerConn.handleRset`: reset the mail transaction and the state. -/
def handleRset (s : ServerConn) : ServerConn × List Str :=
  ({ s with mail := blankMail, state := STATE_EHLO },
   [writeNorm PREPARED_S_ACKNOWLEDGE])

/-- The command switch of `ServerConn.handle` (the `switch` statement);
the Bool result is false when the session ends (QUIT or broken DATA). -/
def dispatchCmd (s : ServerConn) (command line : Str) (input : List Str)
    (hsOk : Bool) : ServerConn × List Str × Bool :=
  if command = str "EHLO" ∨ command = str "HELO" then
    let r := handleEHLO s line; (r.1, r.2, true)
  else if command = str "MAIL" then
    let r := handleMailFrom s line; (r.1, r.2, true)
  else if command = str "RCPT" then
    let r := handleRctpTo s line; (r.1, r.2, true)
  else if command = str "DATA" then handleData s input
  else if command = str "STARTTLS" then
    let r := handleStartTLS s hsOk; (r.1, r.2, true)
  else if command = str "QUIT" then
    let r := handleQuit s; (r.1, r.2, false)
  else if command = str "RSET" then
    let r := handleRset s; (r.1, r.2, true)
  else (s, [writeNorm PREPARED_S_BAD_COMMAND], true)

/-- One iteration of the `ServerConn.handle` read loop on raw line
`rawLine`: empty read ends the session, whitespace-only lines are skipped,
HTTP verbs get the bad-command reply, otherwise the command is
dispatched.  `input` feeds the DATA capture when the command is DATA. -/
def stepServer (s : ServerConn) (rawLine : Str) (input : List Str)
    (hsOk : Bool) : ServerConn × List Str × Bool :=
  if rawLine = [] then (s, [], false)
  else
    let line := goTrim rawLine
    if line = [] then (s, [], true)
    else
      let upperLine := goToUpper line
      let command := goTrim (FirstWord upperLine)
      if containsSub (str "HTTP") command then
        (s, [writeNorm PREPARED_S_BAD_COMMAND], true)
      else dispatchCmd s command line input hsOk

/-! ## smtp.ClientConn: the client EHLO / STARTTLS driver

Session state of `ClientConn` (final revision of clientconn.go), with the
transport abstracted as on the server side: `transport` and `readerGen`
are identity counters bumped when STARTTLS replaces the connection and
rebuilds the buffered reader, and `hsOk` models the outcome a TLS
handshake would have.  The server is modelled as the list of reply lines
the client reads (each CRLF-terminated, as `util/conn.Read` returns them). -/
structure ClientConn where
  state : Nat
  encrypted : Bool
  transport : Nat
  readerGen : Nat
  hostname : Str
  serverName : Str
  tlsConfigSet : Bool
  hsOk : Bool
deriving Repr, DecidableEq

/-- Value of the leading digit run among the first characters (the
`fmt.Sscanf("%d")` behaviour on a 3-character prefix). -/
def digitsPrefixVal (s : Str) : Option Nat :=
  let ds := s.takeWhile Char.isDigit
  if ds = [] then none
  else some (ds.foldl (fun n c => n * 10 + (c.toNat - 48)) 0)

/-- `ClientConn.parseResponseCode`: the 3-digit code of a reply line, or
500 (`CODE_INTERNAL_SERVER_ERROR`) when it cannot be parsed. -/
def parseResponseCode (response : Str) : Nat :=
  let t := goTrim response
  if t.length ≥ 3 then
    match digitsPrefixVal (t.take 3) with
    | some code => code
    | none => 500
  else 500

/-- The multi-line EHLO reply parsing loop of `sendEHLOWithTLS`: collect
uppercased extension tokens from hyphen-continuation lines; any ≥ 500 code
aborts (`none`); any non-continuation line breaks the loop. -/
def ehloLoop (exts : List Str) : List Str → Option (List Str × List Str)
  | [] => none
  | response :: rest =>
    if response = [] ∨ goTrim response = [] then none
    else
      let code := parseResponseCode response
      if 500 ≤ code then none
      else if response.length ≥ 4 ∧ response.get? 3 = some '-' then
        let exts' :=
          if response.length > 5 then
            let ext := goTrim (response.drop 4)
            if ext ≠ [] then exts ++ [goToUpper ext] else exts
          else exts
        ehloLoop exts' rest
      else some (exts, rest)

/-- The STARTTLS command line the client writes. -/
def starttlsCmd : Str := str "STARTTLS" ++ crlf

/-- The EHLO command line the client writes. -/
def ehloCmdOf (c : ClientConn) : Str := str "EHLO " ++ c.hostname ++ crlf

/-- `ClientConn.sendSTARTTLS`: write STARTTLS, require a 220 reply, run
the TLS handshake, and on success replace the transport and rebuild the
reader.  Returns the written command lines and `none` on failure. -/
def sendSTARTTLS (c : ClientConn) (replies : List Str) :
    List Str × Option (ClientConn × List Str) :=
  match replies with
  | [] => ([starttlsCmd], none)
  | r :: rest =>
    if r = [] ∨ goTrim r = [] then ([starttlsCmd], none)
    else if ¬ (parseResponseCode r = 220) then ([starttlsCmd], none)
    else if ¬ c.hsOk then ([starttlsCmd], none)
    else ([starttlsCmd],
          some ({ c with encrypted := true, transport := c.transport + 1,
                         readerGen := c.readerGen + 1 }, rest))

/-- `ClientConn.sendEHLOWithTLS` with `allowTLS = false`: write EHLO,
parse the reply, never attempt STARTTLS, and advance to the MAIL state. -/
def sendEHLONoTLS (c : ClientConn) (replies : List Str) :
    List Str × Option (ClientConn × List Str) :=
  match ehloLoop [] replies with
  | none => ([ehloCmdOf c], none)
  | some (_, rest) => ([ehloCmdOf c], some ({ c with state := STATE_MAIL_FROM }, rest))

/-- The STARTTLS-advertisement test of `sendEHLOWithTLS`. -/
def supportsSTARTTLS (exts : List Str) : Bool :=
  exts.any (fun ext => containsSub (str "STARTTLS") (goToUpper ext))

/-- `ClientConn.sendEHLOWithTLS`: with `allowTLS = true`, an advertised
STARTTLS triggers `sendSTARTTLS` (creating a default TLS configuration
when none is set) followed by a second EHLO with STARTTLS suppressed; the
`allowTLS = false` instance is `sendEHLONoTLS`. -/
def sendEHLOWithTLS (allowTLS : Bool) (c : ClientConn) (replies : List Str) :
    List Str × Option (ClientConn × List Str) :=
  if allowTLS then
    match ehloLoop [] replies with
    | none => ([ehloCmdOf c], none)
    | some (exts, rest) =>
      if supportsSTARTTLS exts then
        let c1 := if ¬ c.tlsConfigSet then { c with tlsConfigSet := true } else c
        let w := sendSTARTTLS c1 rest
        match w.2 with
        | none => ([ehloCmdOf c] ++ w.1, none)
        | some (c2, rest2) =>
          let w2 := sendEHLONoTLS c2 rest2
          ([ehloCmdOf c] ++ w.1 ++ w2.1, w2.2)
      else ([ehloCmdOf c], some ({ c with state := STATE_MAIL_FROM }, rest))
  else sendEHLONoTLS c replies

/-- `ClientConn.sendEHLO`: the session driver enters with TLS allowed. -/
def sendEHLO (c : ClientConn) (replies : List Str) :
    List Str × Option (ClientConn × List Str) :=
  sendEHLOWithTLS true c replies

/-! ## Definitions taken from the spec's wording (for refinement checks) -/

/-- Spec wording for the DATA terminator test: the line with only the
trailing CRLF trimmed (not all surrounding whitespace). -/
def claimTrimCRLF (s : Str) : Str :=
  if endsWithCRLF s then s.take (s.length - 2) else s

/-- Spec wording for decomposing one named-address entry: the LAST
whitespace-run of the entry is the boundary between the display name and
the bracketed address; quotes around the name are stripped. -/
def specLastRunSplit (entry : Str) : Str × Str :=
  let t := goTrim entry
  let r := t.reverse
  let addrPart := (r.takeWhile (fun c => ¬ wsChar c)).reverse
  let namePart := ((r.dropWhile (fun c => ¬ wsChar c)).dropWhile wsChar).reverse
  (removeQuotes namePart, CleanEmail addrPart)

/-- Spec wording for `parse_named_addresses`: split the header value on
`,` at the top level and decompose each entry with `specLastRunSplit`. -/
def specParseNamedAddresses (line : Str) : List (Str × Str) :=
  match idxOf ':' line with
  | none => []
  | some keyEnd =>
    (splitOnChar ',' (goTrim (line.drop (keyEnd + 1)))).map specLastRunSplit

/-! ## Dispatch helper lemmas (concrete command lines) -/

theorem stepServer_DATA (s : ServerConn) (input : List Str) (hs : Bool) :
    stepServer s (str "DATA" ++ crlf) input hs = handleData s input := rfl

theorem stepServer_RSET (s : ServerConn) (input : List Str) (hs : Bool) :
    stepServer s (str "RSET" ++ crlf) input hs =
      ((handleRset s).1, (handleRset s).2, true) := rfl

theorem stepServer_STARTTLS (s : ServerConn) (input : List Str) (hs : Bool) :
    stepServer s (str "STARTTLS" ++ crlf) input hs =
      ((handleStartTLS s hs).1, (handleStartTLS s hs).2, true) := rfl

/-! ## Claim C2: RSET -/

/-- Session used for the C2 counterexample: a session that has done EHLO
(state `MAIL_FROM_READY`) and carries a leftover mail value. -/
def c2Conn : ServerConn :=
  { state := STATE_MAIL_FROM, relay := false, tlsConfigSet := false,
    encrypted := true, transport := 3, serverDomain := str "localhost",
    mail := { blankMail with from_ := str "a@x", to_ := [str "b@y"] },
    verifyEmail := some (fun _ => true), emailExists := some (fun _ => true),
    mailHandler := none }

/-- C2, counterexample.  RSET from the MAIL-ready state clears the
envelope and replies 250 OK, but the session is NOT returned to a state
that accepts MAIL FROM: the immediately following MAIL FROM is refused
with 503 Bad sequence of commands. -/
theorem C2_counterexample :
    (stepServer c2Conn (str "RSET" ++ crlf) [] false).2.1 =
        [writeNorm PREPARED_S_ACKNOWLEDGE]
    ∧ (stepServer c2Conn (str "RSET" ++ crlf) [] false).1.mail = blankMail
    ∧ (stepServer (stepServer c2Conn (str "RSET" ++ crlf) [] false).1
          (str "MAIL FROM:<a@x.co>" ++ crlf) [] false).2.1 =
        [writeNorm PREPARED_S_BAD_SEQUENCE] := by
  refine ⟨rfl, by decide, by decide⟩

/-- C2 (amended): in every server session state, RSET clears the envelope
(sender, recipients, flags and data all emptied), replies 250 OK, and
preserves the (possibly TLS-upgraded) transport — but it returns the
session to the initial greeting (EHLO) state rather than to the
MAIL-ready state, so a following MAIL FROM is refused with 503 until a
new EHLO is sent. -/
theorem C2_rset_clears_envelope (s : ServerConn) (input : List Str) (hs : Bool) :
    stepServer s (str "RSET" ++ crlf) input hs =
      ({ s with mail := blankMail, state := STATE_EHLO },
       [writeNorm PREPARED_S_ACKNOWLEDGE], true)
    ∧ ({ s with mail := blankMail, state := STATE_EHLO } : ServerConn).transport
        = s.transport
    ∧ ({ s with mail := blankMail, state := STATE_EHLO } : ServerConn).encrypted
        = s.encrypted
    ∧ ({ s with mail := blankMail, state := STATE_EHLO } : ServerConn).tlsConfigSet
        = s.tlsConfigSet
    ∧ (stepServer { s with mail := blankMail, state := STATE_EHLO }
          (str "MAIL FROM:<a@x.co>" ++ crlf) input hs).2.1 =
        [writeNorm PREPARED_S_BAD_SEQUENCE] :=
  ⟨rfl, rfl, rfl, rfl, rfl⟩

/-! ## Claim C1: end of DATA -/

/-- Session used for the C1 counterexample: recipient-ready with an
envelope, no mail handler. -/
def c1Conn : ServerConn :=
  { state := STATE_RCPT_TO, relay := false, tlsConfigSet := false,
    encrypted := false, transport := 0, serverDomain := str "localhost",
    mail := { blankMail with from_ := str "a@x", to_ := [str "b@y"] },
    verifyEmail := none, emailExists := none, mailHandler := none }

/-- C1, counterexample.  A DATA phase ending with the terminator is
acknowledged with 250 OK, but the envelope is NOT reset: the recipient
list (and sender) of the session's mail survive into the next
transaction, so the next transaction does not start from an empty
message. -/
theorem C1_counterexample :
    (stepServer c1Conn (str "DATA" ++ crlf) [str "body" ++ crlf, str "." ++ crlf]
        false).2.1 =
      [writeNorm PREPARED_S_START_DATA, writeNorm PREPARED_S_ACKNOWLEDGE]
    ∧ (stepServer c1Conn (str "DATA" ++ crlf) [str "body" ++ crlf, str "." ++ crlf]
        false).1.mail.to_ = [str "b@y"]
    ∧ ¬ ((stepServer c1Conn (str "DATA" ++ crlf) [str "body" ++ crlf, str "." ++ crlf]
        false).1.mail = blankMail) := by
  refine ⟨by decide, by decide, by decide⟩

/-- C1 (amended): for every server session whose DATA phase ends with the
terminator line, a rejecting mail handler yields the canned 554
Transaction failed reply and an accepting one (or no handler) yields
250 OK — but in either case the envelope is NOT reset: the session keeps
the completed mail (sender, recipients, flags and captured data); on
acceptance the state returns to the initial EHLO state (not the
MAIL-ready state), on rejection it stays in the DATA state. -/
theorem C1_data_reply_envelope_kept (s : ServerConn) (input : List Str) (hs : Bool)
    (hstate : s.state = STATE_RCPT_TO ∨ s.state = STATE_DATA)
    (hterm : (dataCaptureLoop s.mail dataStInit input).2.2 = true) :
    (∀ h, s.mailHandler = some h →
      h { (dataCaptureLoop s.mail dataStInit input).1 with
          data := (dataCaptureLoop s.mail dataStInit input).2.1.headers ++
            (if (dataCaptureLoop s.mail dataStInit input).2.1.bodyStarted
             then (dataCaptureLoop s.mail dataStInit input).2.1.body else []) } = false →
      stepServer s (str "DATA" ++ crlf) input hs =
        ({ s with
             state := STATE_DATA,
             mail := { (dataCaptureLoop s.mail dataStInit input).1 with
               data := (dataCaptureLoop s.mail dataStInit input).2.1.headers ++
                 (if (dataCaptureLoop s.mail dataStInit input).2.1.bodyStarted
                  then (dataCaptureLoop s.mail dataStInit input).2.1.body else []) } },
         [writeNorm PREPARED_S_START_DATA, writeNorm PREPARED_S_TRANSACTION_FAILED],
         true))
    ∧ (∀ h, s.mailHandler = some h →
      h { (dataCaptureLoop s.mail dataStInit input).1 with
          data := (dataCaptureLoop s.mail dataStInit input).2.1.headers ++
            (if (dataCaptureLoop s.mail dataStInit input).2.1.bodyStarted
             then (dataCaptureLoop s.mail dataStInit input).2.1.body else []) } = true →
      stepServer s (str "DATA" ++ crlf) input hs =
        ({ s with
             state := STATE_EHLO,
             mail := { (dataCaptureLoop s.mail dataStInit input).1 with
               data := (dataCaptureLoop s.mail dataStInit input).2.1.headers ++
                 (if (dataCaptureLoop s.mail dataStInit input).2.1.bodyStarted
                  then (dataCaptureLoop s.mail dataStInit input).2.1.body else []) } },
         [writeNorm PREPARED_S_START_DATA, writeNorm PREPARED_S_ACKNOWLEDGE], true))
    ∧ (s.mailHandler = none →
      stepServer s (str "DATA" ++ crlf) input hs =
        ({ s with
             state := STATE_EHLO,
             mail := { (dataCaptureLoop s.mail dataStInit input).1 with
               data := (dataCaptureLoop s.mail dataStInit input).2.1.headers ++
                 (if (dataCaptureLoop s.mail dataStInit input).2.1.bodyStarted
                  then (dataCaptureLoop s.mail dataStInit input).2.1.body else []) } },
         [writeNorm PREPARED_S_START_DATA, writeNorm PREPARED_S_ACKNOWLEDGE], true)) := by
  obtain ⟨st, rl, tl, en, tr, dom, ml, ve, ee, mh⟩ := s
  dsimp only at hstate hterm ⊢
  rcases hstate with h | h <;> subst h
  all_goals refine ⟨fun h hmh hrej => ?_, fun h hmh hacc => ?_, fun hmh => ?_⟩
  all_goals subst hmh
  · simp [stepServer_DATA, handleData, hterm, hrej, STATE_RCPT_TO, STATE_DATA]
  · simp [stepServer_DATA, handleData, hterm, hacc, STATE_RCPT_TO, STATE_DATA,
      STATE_EHLO]
  · simp [stepServer_DATA, handleData, hterm, STATE_RCPT_TO, STATE_DATA, STATE_EHLO]
  · simp [stepServer_DATA, handleData, hterm, hrej, STATE_RCPT_TO, STATE_DATA]
  · simp [stepServer_DATA, handleData, hterm, hacc, STATE_RCPT_TO, STATE_DATA,
      STATE_EHLO]
  · simp [stepServer_DATA, handleData, hterm, STATE_RCPT_TO, STATE_DATA, STATE_EHLO]

/-- Session used for the C1 witness: a rejecting mail handler. -/
def c1wConn : ServerConn :=
  { state := STATE_RCPT_TO, relay := false, tlsConfigSet := false,
    encrypted := false, transport := 0, serverDomain := str "localhost",
    mail := { blankMail with from_ := str "a@x", to_ := [str "b@y"] },
    verifyEmail := none, emailExists := none,
    mailHandler := some (fun _ => false) }

/-- Witness for C1: concrete rejected transaction, 554 written, mail
kept, state stays DATA. -/
theorem C1_witness :
    stepServer c1wConn (str "DATA" ++ crlf) [str "." ++ crlf] false =
      ({ c1wConn with
           state := STATE_DATA,
           mail := { c1wConn.mail with data := [] } },
       [writeNorm PREPARED_S_START_DATA, writeNorm PREPARED_S_TRANSACTION_FAILED],
       true) := by
  exact (C1_data_reply_envelope_kept c1wConn [str "." ++ crlf] false
      (Or.inl rfl) (by decide)).1 (fun _ => false) rfl rfl

/-! ## Claim C3: STARTTLS acceptance -/

/-- Fresh session with TLS material configured, used to reach the C3
counterexample states by running the engine. -/
def c3Conn : ServerConn :=
  { state := STATE_EHLO, relay := false, tlsConfigSet := true,
    encrypted := false, transport := 0, serverDomain := str "localhost",
    mail := blankMail, verifyEmail := some (fun _ => true),
    emailExists := some (fun _ => true), mailHandler := none }

/-- The session reached from `c3Conn` after EHLO, MAIL FROM, RCPT TO and
an accepted DATA transaction: state is back to the EHLO state but the
envelope is still populated. -/
def c3AfterData : ServerConn :=
  (stepServer
    (stepServer
      (stepServer
        (stepServer c3Conn (str "EHLO test.local" ++ crlf) [] false).1
        (str "MAIL FROM:<a@x.co>" ++ crlf) [] false).1
      (str "RCPT TO:<b@y.co>" ++ crlf) [] false).1
    (str "DATA" ++ crlf) [str "body" ++ crlf, str "." ++ crlf] false).1

/-- C3, counterexample.  In a session reached by running the engine
(EHLO, MAIL, RCPT, accepted DATA), STARTTLS is accepted with
`220 Ready to start TLS` although the envelope from the previous
transaction is pending, and the envelope is NOT discarded by the upgrade;
a second STARTTLS on the now-encrypted session (after its re-EHLO) is
accepted again, so acceptance does not require an unencrypted session. -/
theorem C3_counterexample :
    c3AfterData.mail.to_ = [str "b@y.co"]
    ∧ (stepServer c3AfterData (str "STARTTLS" ++ crlf) [] true).2.1 =
        [writeNorm PREPARED_S_STARTTLS_READY]
    ∧ (stepServer c3AfterData (str "STARTTLS" ++ crlf) [] true).1.mail.to_ =
        [str "b@y.co"]
    ∧ (stepServer c3AfterData (str "STARTTLS" ++ crlf) [] true).1.encrypted = true
    ∧ (stepServer
         (stepServer
           (stepServer c3AfterData (str "STARTTLS" ++ crlf) [] true).1
           (str "EHLO test.local" ++ crlf) [] false).1
         (str "STARTTLS" ++ crlf) [] true).2.1 =
        [writeNorm PREPARED_S_STARTTLS_READY] := by
  refine ⟨by decide, by decide, by decide, by decide, by decide⟩

/-- C3 (amended): the server accepts STARTTLS exactly when TLS material is
configured and the state is the EHLO (greeted) or MAIL-ready state,
regardless of whether the session is already encrypted; any other state
receives 503 Bad sequence of commands, and a missing TLS configuration
receives the 500 bad-command reply.  On acceptance it sends
`220 Ready to start TLS` and, when the handshake succeeds, replaces the
transport, resets the state to the EHLO state, and KEEPS any pending
envelope (the mail value is not discarded). -/
theorem C3_starttls_accept (s : ServerConn) (hs : Bool) :
    ((s.state = STATE_EHLO ∨ s.state = STATE_MAIL_FROM) → s.tlsConfigSet = true →
      handleStartTLS s hs =
        ((if hs then
            { s with encrypted := true, transport := s.transport + 1,
                     state := STATE_EHLO }
          else s),
         [writeNorm PREPARED_S_STARTTLS_READY]))
    ∧ (¬ (s.state = STATE_EHLO) → ¬ (s.state = STATE_MAIL_FROM) →
        handleStartTLS s hs = (s, [writeNorm PREPARED_S_BAD_SEQUENCE]))
    ∧ ((s.state = STATE_EHLO ∨ s.state = STATE_MAIL_FROM) → s.tlsConfigSet = false →
        handleStartTLS s hs = (s, [writeNorm PREPARED_S_BAD_COMMAND]))
    ∧ stepServer s (str "STARTTLS" ++ crlf) [] hs =
        ((handleStartTLS s hs).1, (handleStartTLS s hs).2, true) := by
  refine ⟨fun hst htls => ?_, fun h1 h2 => ?_, fun hst htls => ?_, rfl⟩
  · unfold handleStartTLS
    rw [if_neg (by rcases hst with h | h <;> simp [h]), if_neg (by simp [htls])]
    cases hs <;> simp
  · unfold handleStartTLS
    rw [if_pos ⟨h1, h2⟩]
  · unfold handleStartTLS
    rw [if_neg (by rcases hst with h | h <;> simp [h]), if_pos (by simp [htls])]

/-- Witness for C3: an encrypted session in the EHLO state with TLS
material accepts STARTTLS again. -/
theorem C3_witness :
    handleStartTLS
        { state := STATE_EHLO, relay := false, tlsConfigSet := true,
          encrypted := true, transport := 5, serverDomain := str "localhost",
          mail := blankMail, verifyEmail := none, emailExists := none,
          mailHandler := none } true =
      ({ state := STATE_EHLO, relay := false, tlsConfigSet := true,
         encrypted := true, transport := 6, serverDomain := str "localhost",
         mail := blankMail, verifyEmail := none, emailExists := none,
         mailHandler := none },
       [writeNorm PREPARED_S_STARTTLS_READY]) := by
  exact (C3_starttls_accept _ true).1 (Or.inl rfl) rfl

/-! ## Claim C4: EHLO advertisement -/

/-- C4, counterexample.  After a successful STARTTLS upgrade (session
encrypted), the re-sent EHLO still advertises STARTTLS, because the
advertisement only checks that TLS material is configured. -/
theorem C4_counterexample :
    (stepServer c3Conn (str "STARTTLS" ++ crlf) [] true).1.encrypted = true
    ∧ (stepServer (stepServer c3Conn (str "STARTTLS" ++ crlf) [] true).1
          (str "EHLO test.local" ++ crlf) [] false).2.1 =
        [writeNorm (str "250-localhost Hello test.local" ++ crlf),
         writeNorm (str "250-STARTTLS" ++ crlf),
         writeNorm (str "250-8BITMIME" ++ crlf),
         writeNorm PREPARED_S_ACKNOWLEDGE] := by
  refine ⟨by decide, by decide⟩

/-- C4 (amended): on EHLO or HELO with a domain argument present, in the
EHLO state, the server emits a single multi-line 250 reply: first
`250-<server_domain> Hello <client_domain>`, then one hyphen-continuation
line per advertised extension in the order STARTTLS (whenever TLS
material is present, regardless of whether the session is already
encrypted), AUTH PLAIN LOGIN (only when relay mode is on), 8BITMIME
(always), then the terminal line `250 OK`. -/
theorem C4_ehlo_advertisement (s : ServerConn) (line : Str)
    (hstate : s.state = STATE_EHLO)
    (hdom : 2 ≤ (splitOnChar ' ' line).length) :
    handleEHLO s line =
      ({ s with state := if s.relay then STATE_AUTH else STATE_MAIL_FROM },
       [writeNorm (str "250-" ++ s.serverDomain ++ str " Hello " ++
          (splitOnChar ' ' line).getD 1 [] ++ crlf)]
       ++ (if s.tlsConfigSet then [writeNorm (str "250-STARTTLS" ++ crlf)] else [])
       ++ (if s.relay then [writeNorm (str "250-AUTH PLAIN LOGIN" ++ crlf)] else [])
       ++ [writeNorm (str "250-8BITMIME" ++ crlf),
           writeNorm PREPARED_S_ACKNOWLEDGE]) := by
  unfold handleEHLO
  rw [if_neg (by simp [hstate]), if_neg (by omega)]
  cases hr : s.relay <;> simp

/-- Witness for C4: concrete EHLO advertisement on an encrypted session
with TLS material and relay off. -/
theorem C4_witness :
    handleEHLO
        { state := STATE_EHLO, relay := false, tlsConfigSet := true,
          encrypted := true, transport := 1, serverDomain := str "localhost",
          mail := blankMail, verifyEmail := none, emailExists := none,
          mailHandler := none } (str "EHLO test.local") =
      ({ state := STATE_MAIL_FROM, relay := false, tlsConfigSet := true,
         encrypted := true, transport := 1, serverDomain := str "localhost",
         mail := blankMail, verifyEmail := none, emailExists := none,
         mailHandler := none },
       [writeNorm (str "250-localhost Hello test.local" ++ crlf),
        writeNorm (str "250-STARTTLS" ++ crlf),
        writeNorm (str "250-8BITMIME" ++ crlf),
        writeNorm PREPARED_S_ACKNOWLEDGE]) := by
  have h := C4_ehlo_advertisement
    { state := STATE_EHLO, relay := false, tlsConfigSet := true,
      encrypted := true, transport := 1, serverDomain := str "localhost",
      mail := blankMail, verifyEmail := none, emailExists := none,
      mailHandler := none } (str "EHLO test.local") rfl (by decide)
  simpa using h

/-! ## Claim C5: DATA terminator and dot-stuffing removal -/

/-- C5, counterexample.  The line `" .\r\n"` is not `.` after trimming
only the trailing CRLF, yet the capture loop terminates on it (the code
trims ALL surrounding whitespace before comparing with `.`); a plain
`".\r\n"` satisfies both tests. -/
theorem C5_counterexample :
    (dataCaptureLoop blankMail dataStInit [str " ." ++ crlf]).2.2 = true
    ∧ ¬ (claimTrimCRLF (str " ." ++ crlf) = str ".")
    ∧ claimTrimCRLF (str "." ++ crlf) = str "." := by
  refine ⟨by decide, by decide, by decide⟩

/-- C5 (amended): during DATA capture, a received line that is exactly
`.` after trimming ALL leading and trailing whitespace — not merely the
trailing CRLF — terminates the DATA phase, flushing any mid-parse header
first; every other received line is classified after exactly its leading
`.` (when present) has been removed, so the transmitted body line
`..leading` is captured as `.leading`. -/
theorem C5_terminator_and_destuff (m : GoMail) (st : DataSt) (raw : Str)
    (rest : List Str) (hne : raw ≠ []) :
    (goTrim raw = ['.'] →
      dataCaptureLoop m st (raw :: rest) = (dataTermFlush m st, st, true))
    ∧ (¬ (goTrim raw = ['.']) →
      dataCaptureLoop m st (raw :: rest) =
        dataCaptureLoop
          (dataClassify m st (if raw.head? = some '.' then raw.drop 1 else raw)).1
          (dataClassify m st (if raw.head? = some '.' then raw.drop 1 else raw)).2
          rest)
    ∧ (dataCaptureLoop blankMail dataStInit
        [crlf, str "..leading" ++ crlf, str "." ++ crlf]).2.1.body =
      str ".leading" ++ crlf := by
  have hlen : 0 < raw.length := List.length_pos.mpr hne
  refine ⟨fun hterm => ?_, fun hterm => ?_, by decide⟩
  · conv_lhs => rw [dataCaptureLoop]
    rw [if_neg hne, if_pos hterm]
  · conv_lhs => rw [dataCaptureLoop]
    rw [if_neg hne, if_neg hterm]
    simp only [hlen, true_and]

/-- Witness for C5: the whitespace-padded dot line terminates the loop. -/
theorem C5_witness :
    dataCaptureLoop blankMail dataStInit [str " ." ++ crlf] =
      (dataTermFlush blankMail dataStInit, dataStInit, true) :=
  (C5_terminator_and_destuff blankMail dataStInit (str " ." ++ crlf) []
    (by decide)).1 (by decide)

/-! ## Claim C6: RCPT TO and the recipient-existence handler -/

/-- C6: for every RCPT TO command carrying a well-formed bracketed
address (the extraction pipeline succeeds with a non-empty address)
received in the recipient-ready state: a handler answering false yields
the 501 reply with the session — and therefore the recipient list —
unchanged; a handler answering true appends the address at the end of the
recipient list and yields 250 OK.  The default handler answers false for
every address. -/
theorem C6_rcpt_handler (s : ServerConn) (line : Str) (colonIndex addEnd : Nat)
    (address : Str)
    (hstate : s.state = STATE_RCPT_TO)
    (hpre : hasPrefixS (str "RCPT TO:") (goToUpper line) = true)
    (hcolon : idxOf ':' line = some colonIndex)
    (hrem : goTrim (line.drop (colonIndex + 1)) ≠ [])
    (hgt : idxOf '>' (goTrim (line.drop (colonIndex + 1))) = some addEnd)
    (haddr : CleanEmail ((goTrim (line.drop (colonIndex + 1))).take (addEnd + 1))
              = address)
    (hne : address ≠ []) :
    (∀ chk, s.emailExists = some chk → chk address = false →
      handleRctpTo s line = (s, [writeNorm PREPARED_S_BAD_SYNTAX]))
    ∧ (∀ chk, s.emailExists = some chk → chk address = true →
      handleRctpTo s line =
        ({ s with mail := { s.mail with to_ := s.mail.to_ ++ [address] } },
         [writeNorm PREPARED_S_ACKNOWLEDGE]))
    ∧ defaultEmailExistsChecker address = false := by
  refine ⟨fun chk hchk hfalse => ?_, fun chk hchk htrue => ?_, rfl⟩
  · unfold handleRctpTo
    rw [if_neg (by simp [hstate]), if_neg (by simp [hpre])]
    simp only [hcolon]
    rw [if_neg (by simp [hrem])]
    simp only [hgt, haddr]
    rw [if_neg (by simp [hne])]
    simp [hchk, hfalse]
  · unfold handleRctpTo
    rw [if_neg (by simp [hstate]), if_neg (by simp [hpre])]
    simp only [hcolon]
    rw [if_neg (by simp [hrem])]
    simp only [hgt, haddr]
    rw [if_neg (by simp [hne])]
    simp [hchk, htrue]

/-- Session for the C6 witness: recipient-ready with a one-address
allow-list handler. -/
def c6Conn : ServerConn :=
  { state := STATE_RCPT_TO, relay := false, tlsConfigSet := false,
    encrypted := false, transport := 0, serverDomain := str "localhost",
    mail := { blankMail with from_ := str "a@x" },
    verifyEmail := none, emailExists := some (fun a => a = str "b@y"),
    mailHandler := none }

/-- Witness for C6: `RCPT TO:<b@y>` is accepted and appended. -/
theorem C6_witness :
    handleRctpTo c6Conn (str "RCPT TO:<b@y>") =
      ({ c6Conn with mail := { c6Conn.mail with to_ := [str "b@y"] } },
       [writeNorm PREPARED_S_ACKNOWLEDGE]) := by
  have h := (C6_rcpt_handler c6Conn (str "RCPT TO:<b@y>") 7 4 (str "b@y")
      rfl (by decide) (by decide) (by decide) (by decide) (by decide)
      (by decide)).2.1 (fun a => a = str "b@y") rfl (by decide)
  simpa using h

/-! ## Claim C7: protocol errors -/

theorem dispatchCmd_EHLO (s : ServerConn) (line : Str) (input : List Str) (hs : Bool) :
    dispatchCmd s (str "EHLO") line input hs =
      ((handleEHLO s line).1, (handleEHLO s line).2, true) := rfl

theorem dispatchCmd_HELO (s : ServerConn) (line : Str) (input : List Str) (hs : Bool) :
    dispatchCmd s (str "HELO") line input hs =
      ((handleEHLO s line).1, (handleEHLO s line).2, true) := rfl

theorem dispatchCmd_MAIL (s : ServerConn) (line : Str) (input : List Str) (hs : Bool) :
    dispatchCmd s (str "MAIL") line input hs =
      ((handleMailFrom s line).1, (handleMailFrom s line).2, true) := rfl

theorem dispatchCmd_RCPT (s : ServerConn) (line : Str) (input : List Str) (hs : Bool) :
    dispatchCmd s (str "RCPT") line input hs =
      ((handleRctpTo s line).1, (handleRctpTo s line).2, true) := rfl

theorem dispatchCmd_DATA (s : ServerConn) (line : Str) (input : List Str) (hs : Bool) :
    dispatchCmd s (str "DATA") line input hs = handleData s input := rfl

theorem dispatchCmd_STARTTLS (s : ServerConn) (line : Str) (input : List Str)
    (hs : Bool) :
    dispatchCmd s (str "STARTTLS") line input hs =
      ((handleStartTLS s hs).1, (handleStartTLS s hs).2, true) := rfl

/-- Session for the C7 counterexample: a session past EHLO. -/
def c7Conn : ServerConn :=
  { state := STATE_MAIL_FROM, relay := false, tlsConfigSet := false,
    encrypted := false, transport := 0, serverDomain := str "localhost",
    mail := blankMail, verifyEmail := none, emailExists := none,
    mailHandler := none }

/-- C7, counterexample.  An out-of-sequence EHLO (session already past
the EHLO state) is NOT answered with a canned 5xx reply: the server
writes nothing at all and silently continues. -/
theorem C7_counterexample :
    ¬ (c7Conn.state = STATE_EHLO)
    ∧ (stepServer c7Conn (str "EHLO test.local" ++ crlf) [] false).2.1 = []
    ∧ (stepServer c7Conn (str "EHLO test.local" ++ crlf) [] false).2.2 = true := by
  refine ⟨by decide, by decide, by decide⟩

/-- C7 (amended): every protocol error — an HTTP verb, an unknown verb, a
malformed MAIL or RCPT, or an out-of-sequence MAIL, RCPT, DATA, STARTTLS
or under-specified EHLO — is answered with a canned 5xx reply and the
session continues; the single exception is an out-of-sequence EHLO or
HELO, which is silently ignored (no reply is written) while the session
continues. -/
theorem C7_errors_replied (s : ServerConn) (command line raw : Str)
    (input : List Str) (hs : Bool) :
    (goTrim raw ≠ [] →
      containsSub (str "HTTP") (goTrim (FirstWord (goToUpper (goTrim raw)))) = true →
      stepServer s raw input hs = (s, [writeNorm PREPARED_S_BAD_COMMAND], true))
    ∧ (command ≠ str "EHLO" → command ≠ str "HELO" → command ≠ str "MAIL" →
       command ≠ str "RCPT" → command ≠ str "DATA" → command ≠ str "STARTTLS" →
       command ≠ str "QUIT" → command ≠ str "RSET" →
      dispatchCmd s command line input hs =
        (s, [writeNorm PREPARED_S_BAD_COMMAND], true))
    ∧ (¬ (s.state = STATE_MAIL_FROM) →
      dispatchCmd s (str "MAIL") line input hs =
        (s, [writeNorm PREPARED_S_BAD_SEQUENCE], true))
    ∧ (s.state = STATE_MAIL_FROM →
       hasPrefixS (str "MAIL FROM:") (goToUpper line) = false →
      dispatchCmd s (str "MAIL") line input hs =
        (s, [writeNorm PREPARED_S_BAD_COMMAND], true))
    ∧ (¬ (s.state = STATE_RCPT_TO) →
      dispatchCmd s (str "RCPT") line input hs =
        (s, [writeNorm PREPARED_S_BAD_SEQUENCE], true))
    ∧ (s.state = STATE_RCPT_TO →
       hasPrefixS (str "RCPT TO:") (goToUpper line) = false →
      dispatchCmd s (str "RCPT") line input hs =
        (s, [writeNorm PREPARED_S_BAD_COMMAND], true))
    ∧ (¬ (s.state = STATE_RCPT_TO) → ¬ (s.state = STATE_DATA) →
      dispatchCmd s (str "DATA") line input hs =
        (s, [writeNorm PREPARED_S_BAD_SEQUENCE], true))
    ∧ (¬ (s.state = STATE_EHLO) → ¬ (s.state = STATE_MAIL_FROM) →
      dispatchCmd s (str "STARTTLS") line input hs =
        (s, [writeNorm PREPARED_S_BAD_SEQUENCE], true))
    ∧ (s.state = STATE_EHLO → (splitOnChar ' ' line).length < 2 →
      dispatchCmd s (str "EHLO") line input hs =
        (s, [writeNorm PREPARED_S_BAD_SYNTAX], true))
    ∧ (¬ (s.state = STATE_EHLO) →
      dispatchCmd s (str "EHLO") line input hs = (s, [], true)
      ∧ dispatchCmd s (str "HELO") line input hs = (s, [], true)) := by
  refine ⟨fun h1 h2 => ?_, fun n1 n2 n3 n4 n5 n6 n7 n8 => ?_, fun h => ?_,
    fun hst hpre => ?_, fun h => ?_, fun hst hpre => ?_, fun h1 h2 => ?_,
    fun h1 h2 => ?_, fun hst hlen => ?_, fun h => ?_⟩
  · have hraw : raw ≠ [] := fun he => h1 (by simp [he, goTrim])
    simp only [stepServer]
    rw [if_neg hraw, if_neg h1, if_pos h2]
  · simp only [dispatchCmd]
    rw [if_neg (by simp [n1, n2]), if_neg n3, if_neg n4, if_neg n5, if_neg n6,
      if_neg n7, if_neg n8]
  · rw [dispatchCmd_MAIL]
    unfold handleMailFrom
    rw [if_pos h]
  · rw [dispatchCmd_MAIL]
    unfold handleMailFrom
    rw [if_neg (by simp [hst]), if_pos (by simp [hpre])]
  · rw [dispatchCmd_RCPT]
    unfold handleRctpTo
    rw [if_pos h]
  · rw [dispatchCmd_RCPT]
    unfold handleRctpTo
    rw [if_neg (by simp [hst]), if_pos (by simp [hpre])]
  · rw [dispatchCmd_DATA]
    simp only [handleData]
    rw [if_neg h1, if_pos h2]
  · rw [dispatchCmd_STARTTLS]
    unfold handleStartTLS
    rw [if_pos ⟨h1, h2⟩]
  · rw [dispatchCmd_EHLO]
    unfold handleEHLO
    rw [if_neg (by simp [hst]), if_pos hlen]
  · constructor
    · rw [dispatchCmd_EHLO]
      unfold handleEHLO
      rw [if_pos h]
    · rw [dispatchCmd_HELO]
      unfold handleEHLO
      rw [if_pos h]

/-- Witness for C7: concrete out-of-sequence MAIL gets 503, and the
out-of-sequence EHLO is silently ignored. -/
theorem C7_witness :
    dispatchCmd c7Conn (str "DATA") (str "DATA") [] false =
      (c7Conn, [writeNorm PREPARED_S_BAD_SEQUENCE], true)
    ∧ dispatchCmd c7Conn (str "RCPT") (str "RCPT TO:<b@y>") [] false =
      (c7Conn, [writeNorm PREPARED_S_BAD_SEQUENCE], true) := by
  constructor
  · exact (C7_errors_replied c7Conn (str "DATA") (str "DATA")
      [] [] false).2.2.2.2.2.2.1 (by decide) (by decide)
  · exact (C7_errors_replied c7Conn (str "RCPT") (str "RCPT TO:<b@y>")
      [] [] false).2.2.2.2.1 (by decide)

/-! ## Claim C8: client STARTTLS driver -/

theorem ehloCmd_ne_starttlsCmd (c : ClientConn) : ehloCmdOf c ≠ starttlsCmd := by
  intro h
  have hE : (ehloCmdOf c).head? = some 'E' := rfl
  rw [h] at hE
  exact absurd hE (by decide)

theorem count_starttls_single_ehlo (c : ClientConn) :
    List.count starttlsCmd [ehloCmdOf c] = 0 := by
  simp [List.count_cons, beq_iff_eq, ehloCmd_ne_starttlsCmd c]

theorem tlsSet_merge (c : ClientConn) :
    (if ¬ (c.tlsConfigSet = true) then { c with tlsConfigSet := true } else c) =
      { c with tlsConfigSet := true } := by
  obtain ⟨cst, cen, ctr, crd, chost, csrv, ctls, chs⟩ := c
  cases ctls <;> simp

theorem sendSTARTTLS_writes (c : ClientConn) (rs : List Str) :
    (sendSTARTTLS c rs).1 = [starttlsCmd] := by
  cases rs with
  | nil => rfl
  | cons r rest =>
    simp only [sendSTARTTLS]
    split_ifs <;> rfl

theorem sendEHLONoTLS_writes (c : ClientConn) (rs : List Str) :
    (sendEHLONoTLS c rs).1 = [ehloCmdOf c] := by
  unfold sendEHLONoTLS
  cases h : ehloLoop [] rs with
  | none => rfl
  | some p => rfl

theorem sendSTARTTLS_not220 (c : ClientConn) (r : Str) (rest2 : List Str)
    (h1 : r ≠ []) (h2 : goTrim r ≠ []) (h3 : ¬ (parseResponseCode r = 220)) :
    sendSTARTTLS c (r :: rest2) = ([starttlsCmd], none) := by
  simp only [sendSTARTTLS]
  rw [if_neg (by simp [h1, h2]), if_pos h3]

theorem sendSTARTTLS_ok (c : ClientConn) (r : Str) (rest2 : List Str)
    (h1 : r ≠ []) (h2 : goTrim r ≠ []) (h3 : parseResponseCode r = 220)
    (h4 : c.hsOk = true) :
    sendSTARTTLS c (r :: rest2) =
      ([starttlsCmd],
       some ({ c with encrypted := true, transport := c.transport + 1,
                      readerGen := c.readerGen + 1 }, rest2)) := by
  simp only [sendSTARTTLS]
  rw [if_neg (by simp [h1, h2]), if_neg (by simp [h3]), if_neg (by simp [h4])]

/-- C8: the client sends STARTTLS only from the TLS-allowed first EHLO
pass (`sendEHLO`); the suppressed pass sends none, so at most one
STARTTLS command is ever written in a session.  When STARTTLS is among
the advertised extensions of the EHLO reply, the client sends STARTTLS; a
non-220 reply aborts; on 220 with a successful handshake the transport
and reader are replaced (encrypted, counters bumped, a default TLS
configuration installed if none was set) and EHLO is re-sent through the
STARTTLS-suppressed pass.  Without the advertisement the client proceeds
straight to the MAIL state. -/
theorem C8_client_single_starttls (c : ClientConn) (replies : List Str) :
    List.count starttlsCmd (sendEHLOWithTLS false c replies).1 = 0
    ∧ List.count starttlsCmd (sendEHLO c replies).1 ≤ 1
    ∧ (∀ exts rest, ehloLoop [] replies = some (exts, rest) →
        supportsSTARTTLS exts = true →
        (∀ r rest2, rest = r :: rest2 → r ≠ [] → goTrim r ≠ [] →
          ¬ (parseResponseCode r = 220) →
          sendEHLO c replies = ([ehloCmdOf c, starttlsCmd], none))
        ∧ (∀ r rest2, rest = r :: rest2 → r ≠ [] → goTrim r ≠ [] →
          parseResponseCode r = 220 → c.hsOk = true →
          sendEHLO c replies =
            ([ehloCmdOf c, starttlsCmd] ++
              (sendEHLONoTLS
                { c with tlsConfigSet := true, encrypted := true,
                         transport := c.transport + 1,
                         readerGen := c.readerGen + 1 } rest2).1,
             (sendEHLONoTLS
                { c with tlsConfigSet := true, encrypted := true,
                         transport := c.transport + 1,
                         readerGen := c.readerGen + 1 } rest2).2)))
    ∧ (∀ exts rest, ehloLoop [] replies = some (exts, rest) →
        supportsSTARTTLS exts = false →
        sendEHLO c replies =
          ([ehloCmdOf c], some ({ c with state := STATE_MAIL_FROM }, rest))) := by
  refine ⟨?_, ?_, fun exts rest hloop hsup => ⟨?_, ?_⟩, fun exts rest hloop hsup => ?_⟩
  · rw [show sendEHLOWithTLS false c replies = sendEHLONoTLS c replies from rfl]
    rw [sendEHLONoTLS_writes]
    exact count_starttls_single_ehlo _
  · unfold sendEHLO sendEHLOWithTLS
    cases hloop : ehloLoop [] replies with
    | none => simp [count_starttls_single_ehlo]
    | some p =>
      obtain ⟨exts, rest⟩ := p
      by_cases hsup : supportsSTARTTLS exts = true
      · simp only [hsup, if_true]
        cases hw : (sendSTARTTLS
            (if ¬ (c.tlsConfigSet = true) then { c with tlsConfigSet := true }
             else c) rest).2 with
        | none =>
          simp only [hw]
          rw [List.count_append, sendSTARTTLS_writes]
          simp [List.count_cons, beq_iff_eq, ehloCmd_ne_starttlsCmd,
            count_starttls_single_ehlo]
        | some q =>
          obtain ⟨c2, rest2⟩ := q
          simp only [hw]
          rw [List.count_append, List.count_append, sendSTARTTLS_writes,
            sendEHLONoTLS_writes]
          simp [List.count_cons, beq_iff_eq, ehloCmd_ne_starttlsCmd,
            count_starttls_single_ehlo]
      · simp only [hsup]
        simp [count_starttls_single_ehlo]
  · intro r rest2 hrest h1 h2 h3
    subst hrest
    unfold sendEHLO sendEHLOWithTLS
    simp only [hloop, hsup, if_true]
    by_cases ht : c.tlsConfigSet = true <;>
      simp only [ht] <;>
      rw [sendSTARTTLS_not220 _ r rest2 h1 h2 h3] <;>
      simp
  · intro r rest2 hrest h1 h2 h3 h4
    subst hrest
    unfold sendEHLO sendEHLOWithTLS
    simp only [hloop, hsup, if_true]
    rw [tlsSet_merge c,
      sendSTARTTLS_ok { c with tlsConfigSet := true } r rest2 h1 h2 h3 h4]
    rfl
  · unfold sendEHLO sendEHLOWithTLS
    simp only [hloop, hsup]
    rfl

/-- Client used for the C8 witness. -/
def c8Conn : ClientConn :=
  { state := STATE_EHLO, encrypted := false, transport := 0, readerGen := 0,
    hostname := str "test.local", serverName := str "srv",
    tlsConfigSet := false, hsOk := true }

/-- Server replies used for the C8 witness: EHLO advertisement with
STARTTLS, the 220 go-ahead, and the post-upgrade EHLO reply. -/
def c8Replies : List Str :=
  [str "250-STARTTLS" ++ crlf, str "250 OK" ++ crlf,
   str "220 Ready to start TLS" ++ crlf,
   str "250-8BITMIME" ++ crlf, str "250 OK" ++ crlf]

/-- Witness for C8: the concrete upgraded run writes EHLO, one STARTTLS,
then EHLO again, and finishes in the MAIL state over the replaced
transport. -/
theorem C8_witness :
    sendEHLO c8Conn c8Replies =
      ([ehloCmdOf c8Conn, starttlsCmd, ehloCmdOf c8Conn],
       some ({ c8Conn with
                 state := STATE_MAIL_FROM,
                 encrypted := true,
                 transport := 1,
                 readerGen := 1,
                 tlsConfigSet := true }, [])) := by
  have h := ((C8_client_single_starttls c8Conn c8Replies).2.2.1
      [str "STARTTLS"]
      ((str "220 Ready to start TLS" ++ crlf) ::
        [str "250-8BITMIME" ++ crlf, str "250 OK" ++ crlf])
      (by decide) (by decide)).2
      (str "220 Ready to start TLS" ++ crlf)
      [str "250-8BITMIME" ++ crlf, str "250 OK" ++ crlf]
      rfl (by decide) (by decide) (by decide) rfl
  exact h.trans (by decide)

/-! ## Claim C9: named-address header parsing -/

theorem splitOnChar_length (c : Char) (s : Str) :
    (splitOnChar c s).length = countChar c s + 1 := by
  induction s with
  | nil => rfl
  | cons d rest ih =>
    simp only [splitOnChar]
    by_cases hd : d = c
    · subst hd
      simp only [if_pos rfl, List.length_cons, ih, countChar, List.count_cons,
        beq_self_eq_true, if_pos]
    · have hdc : (d == c) = false := by
        simp only [beq_eq_false_iff_ne, ne_eq]
        exact hd
      cases htail : splitOnChar c rest with
      | nil => rw [htail] at ih; simp [countChar] at ih
      | cons t ts =>
        rw [htail] at ih
        simp only [if_neg hd, htail, List.length_cons, countChar,
          List.count_cons, hdc] at ih ⊢
        simp at ih ⊢
        omega

theorem countChar_goTrim_le (c : Char) (s : Str) :
    countChar c (goTrim s) ≤ countChar c s := by
  unfold goTrim countChar
  calc ((s.dropWhile wsChar).reverse.dropWhile wsChar).reverse.count c
      = ((s.dropWhile wsChar).reverse.dropWhile wsChar).count c :=
        List.count_reverse ..
    _ ≤ (s.dropWhile wsChar).reverse.count c :=
        (List.dropWhile_sublist _).count_le c
    _ = (s.dropWhile wsChar).count c := List.count_reverse ..
    _ ≤ s.count c := (List.dropWhile_sublist _).count_le c

theorem countChar_drop_le (c : Char) (s : Str) (n : Nat) :
    countChar c (s.drop n) ≤ countChar c s :=
  (List.drop_sublist n s).count_le c

/-- C9, counterexample.  On the header `Cc: John Q Public <j@x>, Bob <b@y>`
the code parses, for EVERY comma-separated entry, the header NAME instead
of the entry (arguments to `rawToNamedAddress` are passed in swapped
order), yielding the pair `("", "Cc")` twice — not the per-entry pairs
required by the claim; and even for a single entry, `CleanFromData`
splits at the FIRST space, so the display name of
`John Q Public <j@x>` is `John`, not the last-whitespace-run name
`John Q Public`. -/
theorem C9_counterexample :
    (ParseNamedAddress (str "Cc: John Q Public <j@x>, Bob <b@y>")).map
        (fun na => (na.name, na.address)) = [([], str "Cc"), ([], str "Cc")]
    ∧ specParseNamedAddresses (str "Cc: John Q Public <j@x>, Bob <b@y>") =
        [(str "John Q Public", str "j@x"), (str "Bob", str "b@y")]
    ∧ ¬ ((ParseNamedAddress (str "Cc: John Q Public <j@x>, Bob <b@y>")).map
          (fun na => (na.name, na.address)) =
        specParseNamedAddresses (str "Cc: John Q Public <j@x>, Bob <b@y>"))
    ∧ (CleanFromData (str "John Q Public <j@x>")).1 = str "John"
    ∧ (specLastRunSplit (str "John Q Public <j@x>")).1 = str "John Q Public" := by
  refine ⟨by decide, by decide, by decide, by decide, by decide⟩

/-- C9 (amended): `ParseNamedAddress` splits the header value on `,`; for
a comma-free value the single slot is decomposed from the full value by
`CleanFromData`, whose name/address boundary is the FIRST space of the
entry (quotes stripped from the name); when the value contains a comma,
slot `i` records entry `i` only as the header key while its
(display-name, address) pair is computed from the header NAME — an
argument-order slip — and trailing slots of the over-allocated result
hold the zero value. -/
theorem C9_parse_named (line : Str) (keyEnd : Nat)
    (hcolon : idxOf ':' line = some keyEnd) :
    ((goTrim (line.drop (keyEnd + 1))).contains ',' = false →
      (ParseNamedAddress line).head? =
        some (rawToNamedAddress (goTrim (line.take keyEnd))
          (goTrim (line.drop (keyEnd + 1))) (goTrim (line.drop (keyEnd + 1)))))
    ∧ ((goTrim (line.drop (keyEnd + 1))).contains ',' = true →
      ∀ (i : Nat) (entry : Str),
        (splitOnChar ',' (goTrim (line.drop (keyEnd + 1))))[i]? = some entry →
        (ParseNamedAddress line)[i]? =
          some (NamedAddress.mk entry (goTrim (line.take keyEnd))
            (CleanFromData (goTrim (line.take keyEnd))).1
            (CleanFromData (goTrim (line.take keyEnd))).2)) := by
  constructor
  · intro hmul
    simp only [ParseNamedAddress, hcolon, hmul, Bool.false_eq_true, if_false]
    rw [List.head?_eq_getElem?, List.getElem?_map,
      List.getElem?_range (Nat.succ_pos (countChar ',' line))]
    rfl
  · intro hmul i entry hent
    have hi : i < (splitOnChar ',' (goTrim (line.drop (keyEnd + 1)))).length := by
      rcases List.getElem?_eq_some.mp hent with ⟨h, _⟩
      exact h
    rw [splitOnChar_length] at hi
    have hle : countChar ',' (goTrim (line.drop (keyEnd + 1))) ≤ countChar ',' line :=
      le_trans (countChar_goTrim_le ',' _) (countChar_drop_le ',' line (keyEnd + 1))
    have hi2 : i < countChar ',' line + 1 := by omega
    simp only [ParseNamedAddress, hcolon, hmul, if_true]
    rw [List.getElem?_map, List.getElem?_range hi2]
    simp only [Option.map_some']
    rw [List.getD_eq_getElem?_getD, List.getElem?_map, hent]
    rfl

/-- Witness for C9: the multi-entry slot of `Cc: a@x, b@y` records the
entry only as the header key; its name/address come from parsing `Cc`. -/
theorem C9_witness :
    (ParseNamedAddress (str "Cc: a@x, b@y"))[0]? =
      some ⟨str "a@x", str "Cc", [], str "Cc"⟩ := by
  have h := (C9_parse_named (str "Cc: a@x, b@y") 2 (by decide)).2 (by decide)
      0 (str "a@x") (by decide)
  exact h.trans (by decide)

/-! ## Claim C10: Mail / JSON DTO round trip -/

theorem toMail_flags_fold (hs : List (Str × Str)) (m0 : GoMail) :
    hs.foldl
      (fun m kv => if kv.1 ≠ [] ∧ kv.2 ≠ [] then
        { m with flags := m.flags ++ [kv] } else m) m0 =
    { m0 with flags := m0.flags ++
        hs.filter (fun kv => decide (kv.1 ≠ [] ∧ kv.2 ≠ [])) } := by
  induction hs generalizing m0 with
  | nil => simp
  | cons kv rest ih =>
    by_cases hkv : kv.1 ≠ [] ∧ kv.2 ≠ []
    · simp only [List.foldl_cons, if_pos hkv, ih, List.filter_cons]
      simp [hkv]
    · simp only [List.foldl_cons, if_neg hkv, ih, List.filter_cons]
      simp [hkv]

theorem headersInsert_of_fresh (hs : List (Str × Str)) (k v : Str)
    (h : ∀ hv ∈ hs, hv.1 ≠ k) :
    headersInsert hs k v = hs ++ [(k, v)] := by
  unfold headersInsert
  rw [if_neg]
  simp only [List.any_eq_true, not_exists, not_and]
  intro hv hmem
  simp [h hv hmem]

theorem fromMail_headers_fold (flags : List (Str × Str))
    (hs : List (Str × Str))
    (hne : ∀ kv ∈ flags, kv.1 ≠ [] ∧ kv.2 ≠ [])
    (hnd : (flags.map Prod.fst).Nodup)
    (hdisj : ∀ kv ∈ flags, ∀ hv ∈ hs, hv.1 ≠ kv.1) :
    flags.foldl
      (fun hs kv => if kv.1 ≠ [] ∧ kv.2 ≠ [] then
        headersInsert hs kv.1 kv.2 else hs) hs = hs ++ flags := by
  induction flags generalizing hs with
  | nil => simp
  | cons kv rest ih =>
    have hkv := hne kv (List.mem_cons_self kv rest)
    simp only [List.map_cons, List.nodup_cons] at hnd
    obtain ⟨hknot, hnd'⟩ := hnd
    simp only [List.foldl_cons, if_pos hkv]
    rw [headersInsert_of_fresh hs kv.1 kv.2
        (fun hv hmem => hdisj kv (List.mem_cons_self kv rest) hv hmem)]
    have hdisj' : ∀ kv' ∈ rest, ∀ hv ∈ hs ++ [(kv.1, kv.2)], hv.1 ≠ kv'.1 := by
      intro kv' h' hv hmem
      rcases List.mem_append.mp hmem with hin | hin
      · exact hdisj kv' (List.mem_cons_of_mem kv h') hv hin
      · have heq : hv = (kv.1, kv.2) := List.mem_singleton.mp hin
        subst heq
        intro he
        exact hknot (List.mem_map.mpr ⟨kv', h', he.symm⟩)
    rw [ih (hs ++ [(kv.1, kv.2)])
        (fun kv' h' => hne kv' (List.mem_cons_of_mem kv h')) hnd' hdisj']
    simp

theorem GoMail.ext' (a b : GoMail) (h1 : a.from_ = b.from_)
    (h2 : a.flags = b.flags) (h3 : a.to_ = b.to_) (h4 : a.cc = b.cc)
    (h5 : a.bcc = b.bcc) (h6 : a.subject = b.subject)
    (h7 : a.data = b.data) : a = b := by
  cases a
  cases b
  simp only at h1 h2 h3 h4 h5 h6 h7
  subst h1 h2 h3 h4 h5 h6 h7
  rfl

theorem ToMail_fields (j : JSONMail) :
    ToMail j =
      { from_ := j.From
        flags := j.Headers.filter (fun kv => decide (kv.1 ≠ [] ∧ kv.2 ≠ []))
        to_ := j.To
        cc := j.CC
        bcc := j.BCC
        subject := j.Subject
        data := j.Body } := by
  obtain ⟨jF, jT, jC, jB, jS, jBo, jH⟩ := j
  show (ToMail ⟨jF, jT, jC, jB, jS, jBo, jH⟩) = _
  unfold ToMail
  dsimp only
  rw [toMail_flags_fold]
  apply GoMail.ext'
  · simp only [apply_ite GoMail.from_, ite_self]
    by_cases h : jF = [] <;> simp [h, blankMail]
  · simp only [apply_ite GoMail.flags, ite_self]
    simp [blankMail]
  · simp only [apply_ite GoMail.to_, ite_self]
    by_cases h : jT.length > 0
    · simp [h, blankMail]
    · have : jT = [] := List.length_eq_zero.mp (by omega)
      simp [h, this, blankMail]
  · simp only [apply_ite GoMail.cc, ite_self]
    by_cases h : jC.length > 0
    · simp [h, blankMail]
    · have : jC = [] := List.length_eq_zero.mp (by omega)
      simp [h, this, blankMail]
  · simp only [apply_ite GoMail.bcc, ite_self]
    by_cases h : jB.length > 0
    · simp [h, blankMail]
    · have : jB = [] := List.length_eq_zero.mp (by omega)
      simp [h, this, blankMail]
  · simp only [apply_ite GoMail.subject, ite_self]
    by_cases h : jS = [] <;> simp [h, blankMail]
  · simp only [apply_ite GoMail.data, ite_self]
    by_cases h : jBo = [] <;> simp [h, blankMail]

/-- Mail used for the C10 counterexample: duplicate flag keys. -/
def c10Mail : GoMail :=
  ⟨str "a@x", [(str "K", str "1"), (str "K", str "2")],
   [str "b@y"], [], [], str "s", str "d"⟩

/-- C10, counterexample.  A Mail with two flags sharing the key `K` (all
keys and values non-empty) does not survive the DTO round trip: the
Headers map collapses the duplicate, so only the last `K` flag comes
back. -/
theorem C10_counterexample :
    (∀ kv ∈ c10Mail.flags, kv.1 ≠ [] ∧ kv.2 ≠ [])
    ∧ ¬ (ToMail (FromMail c10Mail) = c10Mail)
    ∧ (ToMail (FromMail c10Mail)).flags = [(str "K", str "2")] := by
  refine ⟨by decide, by decide, by decide⟩

/-- C10 (amended): for every Mail whose flag keys are non-empty, pairwise
distinct, and whose flag values are non-empty, converting to the JSON
transport DTO and back preserves the sender, recipient lists, subject and
data exactly, and returns a flag list that is a permutation of the
original (the Headers map iteration order is not specified, so only the
multiset of flags is guaranteed; with duplicate keys the later value
overwrites the earlier one and the round trip fails). -/
theorem C10_roundtrip (m : GoMail)
    (hnd : (m.flags.map Prod.fst).Nodup)
    (hne : ∀ kv ∈ m.flags, kv.1 ≠ [] ∧ kv.2 ≠ []) :
    (ToMail (FromMail m)).from_ = m.from_
    ∧ (ToMail (FromMail m)).to_ = m.to_
    ∧ (ToMail (FromMail m)).cc = m.cc
    ∧ (ToMail (FromMail m)).bcc = m.bcc
    ∧ (ToMail (FromMail m)).subject = m.subject
    ∧ (ToMail (FromMail m)).data = m.data
    ∧ (ToMail (FromMail m)).flags.Perm m.flags := by
  have hH : (FromMail m).Headers = m.flags := by
    unfold FromMail
    dsimp only
    rw [fromMail_headers_fold m.flags [] hne hnd (by simp)]
    simp
  rw [ToMail_fields]
  have hfil : (FromMail m).Headers.filter
      (fun kv => decide (kv.1 ≠ [] ∧ kv.2 ≠ [])) = m.flags := by
    rw [hH]
    rw [List.filter_eq_self]
    intro kv hmem
    simpa using hne kv hmem
  refine ⟨rfl, rfl, rfl, rfl, rfl, rfl, ?_⟩
  simp only [hfil]
  exact List.Perm.refl _

/-- Mail used for the C10 witness: distinct flag keys. -/
def c10wMail : GoMail :=
  ⟨str "a@x", [(str "A", str "1"), (str "B", str "2")],
   [str "b@y"], [], [], str "s", str "d"⟩

/-- Witness for C10: the distinct-key Mail round-trips (flags up to
permutation). -/
theorem C10_witness :
    (ToMail (FromMail c10wMail)).flags.Perm c10wMail.flags
    ∧ (ToMail (FromMail c10wMail)).from_ = c10wMail.from_
    ∧ (ToMail (FromMail c10wMail)).to_ = c10wMail.to_ := by
  have h := C10_roundtrip c10wMail (by decide) (by decide)
  exact ⟨h.2.2.2.2.2.2, h.1, h.2.1⟩

end MySMTP
